import Mathlib

/-!
Shallow embedding of the Mother Earth Radio Volumio plugin
(repository FlorianReiterer/volumio-plugins-sources).

The repository holds three near-identical revisions of the plugin:
two in src/unnamed/part_000 (called rev A, lines 1-833, and rev B,
lines 833-1657 below; their SSE, backoff and playback code is identical,
they differ in updateMetadata defaults) and an older one in
src/motherearthradio/index.js (called the idx revision below; it has
fixed reconnect delays and no high-latency metadata offset).

JavaScript values flowing through the decoder are modelled by a small
JSON value type; JS truthiness and the JS expression x || d are modelled
explicitly.  Times and delays are integers (milliseconds).
-/

namespace MER

/-- JSON value, as produced by JSON.parse on an SSE data line. -/
inductive Json where
  | null
  | bool (b : Bool)
  | num (n : Int)
  | str (s : String)
  | arr (elems : List Json)
  | obj (fields : List (String × Json))

/-- JS truthiness of a JSON value: null, false, 0 and the empty string are
falsy; arrays and objects (even empty ones) are truthy. -/
def truthy : Json → Bool
  | Json.null => false
  | Json.bool b => b
  | Json.num n => n != 0
  | Json.str s => s != ""
  | Json.arr _ => true
  | Json.obj _ => true

/-- Property access a.x (also a?.x): a field of an object, and undefined
(modelled as none) on any non-object or missing field. -/
def getField (j : Json) (name : String) : Option Json :=
  match j with
  | Json.obj fields => List.lookup name fields
  | _ => none

/-- JS truthiness of a possibly-undefined value. -/
def truthyO : Option Json → Bool
  | some j => truthy j
  | none => false

/-- The JS expression a || b for possibly-undefined a and b. -/
def jsOrO (a b : Option Json) : Option Json :=
  if truthyO a then a else b

/-- The JS expression a || d for a possibly-undefined a and a default d. -/
def jsOr (a : Option Json) (d : Json) : Json :=
  match a with
  | some v => if truthy v then v else d
  | none => d

/-! The channel registry, from the constructor of part_000
(this.channels, identical in rev A and rev B). -/

/-- Stream URLs of one channel, per quality tier key. -/
structure Streams where
  flac192 : String
  flac96 : String
  aac : String

/-- One entry of this.channels in part_000. -/
structure ChannelSpec where
  name : String
  shortcode : String
  streams : Streams

/-- The radio entry of this.channels in part_000. -/
def radioChannel : ChannelSpec :=
  { name := "Radio", shortcode := "motherearth",
    streams :=
      { flac192 := "https://motherearth.streamserver24.com/listen/motherearth/motherearth",
        flac96 := "https://motherearth.streamserver24.com/listen/motherearth/motherearth.flac-lo",
        aac := "https://motherearth.streamserver24.com/listen/motherearth/motherearth.aac" } }

/-- The klassik entry of this.channels in part_000. -/
def klassikChannel : ChannelSpec :=
  { name := "Klassik", shortcode := "motherearth_klassik",
    streams :=
      { flac192 := "https://motherearth.streamserver24.com/listen/motherearth_klassik/motherearth.klassik",
        flac96 := "https://motherearth.streamserver24.com/listen/motherearth_klassik/motherearth.klassik.flac-lo",
        aac := "https://motherearth.streamserver24.com/listen/motherearth_klassik/motherearth.klassik.aac" } }

/-- The instrumental entry of this.channels in part_000. -/
def instrumentalChannel : ChannelSpec :=
  { name := "Instrumental", shortcode := "motherearth_instrumental",
    streams :=
      { flac192 := "https://motherearth.streamserver24.com/listen/motherearth_instrumental/motherearth.instrumental",
        flac96 := "https://motherearth.streamserver24.com/listen/motherearth_instrumental/motherearth.instrumental.flac-lo",
        aac := "https://motherearth.streamserver24.com/listen/motherearth_instrumental/motherearth.instrumental.aac" } }

/-- The jazz entry of this.channels in part_000. -/
def jazzChannel : ChannelSpec :=
  { name := "Jazz", shortcode := "motherearth_jazz",
    streams :=
      { flac192 := "https://motherearth.streamserver24.com/listen/motherearth_jazz/motherearth.jazz",
        flac96 := "https://motherearth.streamserver24.com/listen/motherearth_jazz/motherearth.jazz.flac-lo",
        aac := "https://motherearth.streamserver24.com/listen/motherearth_jazz/motherearth.jazz.aac" } }

/-- The channel table this.channels of part_000, in insertion order
(Object.entries order): radio, klassik, instrumental, jazz. -/
def channelsList : List (String × ChannelSpec) :=
  [ ("radio", radioChannel), ("klassik", klassikChannel),
    ("instrumental", instrumentalChannel), ("jazz", jazzChannel) ]

/-- Whether the character list s begins with the character list sub. -/
def strStartsWith : List Char → List Char → Bool
  | [], _ => true
  | _ :: _, [] => false
  | a :: as, b :: bs => a == b && strStartsWith as bs

/-- Whether sub occurs as a contiguous run inside the character list. -/
def strContainsAux (sub : List Char) : List Char → Bool
  | [] => sub.isEmpty
  | b :: bs => strStartsWith sub (b :: bs) || strContainsAux sub bs

/-- JS uri.includes(sub): substring occurrence. -/
def includesStr (s sub : String) : Bool :=
  strContainsAux sub.data s.data

/-- One step of JS split at a single-character separator, over the
character list of the string (recursing from the right; splitting at a
single character is direction-independent). -/
def splitOnCharAux (c : Char) : List Char → List (List Char)
  | [] => [[]]
  | x :: xs =>
    let r := splitOnCharAux c xs
    if x == c then [] :: r
    else
      match r with
      | h :: t => (x :: h) :: t
      | [] => [[x]]

/-- JS uri.split at the slash separator.  The empty string splits to a
one-element list holding the empty string, as in JS. -/
def splitSlash (s : String) : List String :=
  (splitOnCharAux '/' s.data).map String.mk

/-- The fallback for-loop of getChannelFromUri in part_000, unrolled over
this.channels in insertion order: the first channel whose shortcode occurs
in the uri wins, and the default is the radio channel. -/
def shortcodeScan (u : String) : String :=
  if includesStr u "motherearth" then "radio"
  else if includesStr u "motherearth_klassik" then "klassik"
  else if includesStr u "motherearth_instrumental" then "instrumental"
  else if includesStr u "motherearth_jazz" then "jazz"
  else "radio"

/-- The path-segment test of getChannelFromUri in part_000, on the result
of splitting the uri at the slashes: a uri of the form
motherearthradio/K/... with K a registered key gives K; every other shape
falls through to the shortcode scan. -/
def channelFromParts (u : String) (parts : List String) : String :=
  match parts with
  | p0 :: p1 :: _ =>
    if p0 = "motherearthradio" then
      if (List.lookup p1 channelsList).isSome then p1 else shortcodeScan u
    else shortcodeScan u
  | _ => shortcodeScan u

/-- getChannelFromUri of part_000.  A null, undefined or empty uri (all
falsy in JS) gives the radio channel; otherwise the split uri is
inspected. -/
def getChannelFromUri (uri : Option String) : String :=
  match uri with
  | none => "radio"
  | some u =>
    if u = "" then "radio"
    else channelFromParts u (splitSlash u)

/-- The path-segment test of getQualityFromUri in part_000: the third path
segment when the uri has the motherearthradio/K/Q form and Q is one of the
three tier keys. -/
def qualityFromParts (parts : List String) : Option String :=
  match parts with
  | p0 :: _ :: p2 :: _ =>
    if p0 = "motherearthradio" ∧ (p2 = "flac192" ∨ p2 = "flac96" ∨ p2 = "aac")
    then some p2 else none
  | _ => none

/-- The trailing fallback of getQualityFromUri in part_000: detection of
.flac-lo or .aac in the uri, else the flac192 default. -/
def qualityFallback (u : String) : String :=
  if includesStr u ".flac-lo" then "flac96"
  else if includesStr u ".aac" then "aac"
  else "flac192"

/-- getQualityFromUri of part_000: the third path segment when it is one of
the three tier keys, else the substring fallback. -/
def getQualityFromUri (uri : Option String) : String :=
  match uri with
  | none => "flac192"
  | some u =>
    if u = "" then "flac192"
    else (qualityFromParts (splitSlash u)).getD (qualityFallback u)

/-- Dynamic property access channel.streams[quality] of part_000. -/
def streamsGet (st : Streams) (q : String) : Option String :=
  if q = "flac192" then some st.flac192
  else if q = "flac96" then some st.flac96
  else if q = "aac" then some st.aac
  else none

/-- getStreamUrl of part_000: null for an unregistered channel key,
otherwise channel.streams[quality] || channel.streams.flac192 (the JS ||
also replaces an empty-string entry by the flac192 default). -/
def getStreamUrl (channelKey quality : String) : Option String :=
  match List.lookup channelKey channelsList with
  | none => none
  | some channel =>
    match streamsGet channel.streams quality with
    | some s => some (if s = "" then channel.streams.flac192 else s)
    | none => some channel.streams.flac192

/-! Delay scheduler constants and getEffectiveDelay of part_000. -/

/-- HIGH_LATENCY_DELAY_MS of part_000 (fixed metadata delay added in high
latency mode). -/
def HIGH_LATENCY_DELAY_MS : Int := 2000

/-- getEffectiveDelay of part_000: the stored metadataDelay value
(used by the source directly as a setTimeout millisecond count), plus
HIGH_LATENCY_DELAY_MS when highLatencyMode is set, floored at 0 by
Math.max.  The initial JS expression this.metadataDelay || 0 only replaces
an unset field by 0 and is the identity on the integer model. -/
def getEffectiveDelay (metadataDelay : Int) (highLatencyMode : Bool) : Int :=
  let delay := metadataDelay + (if highLatencyMode then HIGH_LATENCY_DELAY_MS else 0)
  max 0 delay

/-- handleMetadata of the idx revision schedules pushMetadata after
this.metadataDelay * 1000 milliseconds (the stored value is a second
count there) and adds no high-latency offset. -/
def idxHandleMetadataDelayMs (metadataDelay : Int) : Int :=
  metadataDelay * 1000

/-! Envelope decoding: handleSSEMessage and processNowPlayingData of
part_000 (identical in rev A and rev B). -/

/-- A canonical track event, as extracted by processNowPlayingData: the
song object together with the (defaulted) duration and elapsed values of
np.now_playing. -/
structure TrackEvent where
  song : Json
  duration : Json
  elapsed : Json

/-- The single decode step processNowPlayingData of part_000, returning
the list of track events it emits (zero or one).  The now-playing payload
is data?.pub?.data?.np || data?.np; a payload without a truthy np, without
a truthy np.now_playing or without a truthy song produces nothing;
duration and elapsed are defaulted to 0 by the JS ||. -/
def processNowPlayingData (data : Json) : List TrackEvent :=
  let np := jsOrO
    (((getField data "pub").bind (fun p => getField p "data")).bind (fun d => getField d "np"))
    (getField data "np")
  match np with
  | none => []
  | some npV =>
    if truthy npV = false then []
    else
      match getField npV "now_playing" with
      | none => []
      | some nowPlaying =>
        if truthy nowPlaying = false then []
        else
          let duration := jsOr (getField nowPlaying "duration") (Json.num 0)
          let elapsed := jsOr (getField nowPlaying "elapsed") (Json.num 0)
          match getField nowPlaying "song" with
          | none => []
          | some song =>
            if truthy song = false then []
            else [{ song := song, duration := duration, elapsed := elapsed }]

/-- Whether a decoded payload carries a populated now-playing/song
sub-structure, i.e. passes every guard of processNowPlayingData. -/
def hasPopulatedSong (data : Json) : Bool :=
  let np := jsOrO
    (((getField data "pub").bind (fun p => getField p "data")).bind (fun d => getField d "np"))
    (getField data "np")
  match np with
  | none => false
  | some npV =>
    truthy npV &&
      match getField npV "now_playing" with
      | none => false
      | some nowPlaying =>
        truthy nowPlaying && truthyO (getField nowPlaying "song")

/-- One line of an SSE frame, after the provider-specific text handling:
a line that starts with the payload marker carries the JSON.parse result
of its remainder (none when parsing threw), any other line carries its
raw text. -/
inductive SSELine where
  | dataLine (parsed : Option Json)
  | otherLine (s : String)

/-- The line loop of handleSSEMessage: the data variable starts null and
each successfully parsed data line overwrites it (a parse error keeps the
previous value). -/
def lastDataPayload (lines : List SSELine) : Option Json :=
  lines.foldl
    (fun acc l =>
      match l with
      | SSELine.dataLine (some j) => some j
      | _ => acc)
    none

/-- handleSSEMessage of part_000: decode one frame into its track events.
A frame with no (truthy) parsed payload yields nothing; a frame whose
payload has a truthy connect field yields the concatenation of the
per-item decodes of the connect.data array when that field is an array,
and nothing otherwise; any other payload is decoded directly. -/
def handleSSEMessage (lines : List SSELine) : List TrackEvent :=
  match lastDataPayload lines with
  | none => []
  | some data =>
    if truthy data = false then []
    else
      match getField data "connect" with
      | some c =>
        if truthy c then
          match getField c "data" with
          | some (Json.arr items) =>
            items.foldr (fun item acc => processNowPlayingData item ++ acc) []
          | _ => []
        else processNowPlayingData data
      | none => processNowPlayingData data

/-! Quality helper tables of part_000 (the JS object lookups
labels[quality] || default are unrolled to if-chains over the three
keys). -/

/-- getQualityLabel of part_000. -/
def getQualityLabel (quality : String) : String :=
  if quality = "flac192" then "FLAC 192kHz/24bit"
  else if quality = "flac96" then "FLAC 96kHz/24bit"
  else if quality = "aac" then "AAC 96kHz"
  else quality

/-- getSampleRate of part_000. -/
def getSampleRate (quality : String) : String :=
  if quality = "flac192" then "192 kHz"
  else if quality = "flac96" then "96 kHz"
  else if quality = "aac" then "96 kHz"
  else ""

/-- getBitDepth of part_000 (the aac entry is the empty string, and the
trailing JS || also maps it to the empty default). -/
def getBitDepth (quality : String) : String :=
  if quality = "flac192" then "24 bit"
  else if quality = "flac96" then "24 bit"
  else ""

/-- Multiplication elapsed * 1000 used for the seek field; the payloads
reaching it are numeric (a defaulted 0 or the provider second count). -/
def jsonTimes1000 : Json → Json
  | Json.num n => Json.num (n * 1000)
  | v => v

/-- The variable fields of the state object built by updateMetadata and
pushMetadata.  Constant fields of the source object (status play, service
name, streaming flags, channels 2) are not repeated here. -/
structure VState where
  title : Json
  artist : Json
  album : Json
  albumart : Json
  seek : Json
  duration : Json
  samplerate : String
  bitdepth : String
  trackType : String

/-- Fallback artwork reference of rev A (motherearthlogo.svg). -/
def fallbackArtA : String :=
  "/albumart?sourceicon=music_service/motherearthradio/motherearthlogo.svg"

/-- Fallback artwork reference of rev B and the idx revision. -/
def fallbackArtB : String :=
  "/albumart?sourceicon=music_service/motherearthradio/mer-logo-cube-bold-1x 512.png"

/-- updateMetadata of rev A (part_000 lines 291-319): nothing is pushed
when this.currentChannel does not resolve in the table; otherwise each
field is defaulted by the JS ||, the album default being the quality
label of this.currentQuality. -/
def updateMetadataA (song duration elapsed : Json) (currentChannel : Option String)
    (currentQuality : String) : Option VState :=
  (currentChannel.bind (fun k => List.lookup k channelsList)).map
    (fun channel =>
      { title := jsOr (getField song "title") (Json.str "Unknown")
        artist := jsOr (getField song "artist") (Json.str channel.name)
        album := jsOr (getField song "album") (Json.str (getQualityLabel currentQuality))
        albumart := jsOr (getField song "art") (Json.str fallbackArtA)
        seek := jsonTimes1000 elapsed
        duration := duration
        samplerate := getSampleRate currentQuality
        bitdepth := getBitDepth currentQuality
        trackType := if currentQuality = "aac" then "aac" else "flac" })

/-- The test whether this.currentUri contains .aac in rev B, via optional
chaining: false on a null uri. -/
def uriHasAac (currentUri : Option String) : Bool :=
  match currentUri with
  | some u => includesStr u ".aac"
  | none => false

/-- updateMetadata of rev B (part_000 lines 1141-1167): the album default
is the empty string and the quality fields come from the uri. -/
def updateMetadataB (song duration elapsed : Json) (currentChannel : Option String)
    (currentUri : Option String) : Option VState :=
  (currentChannel.bind (fun k => List.lookup k channelsList)).map
    (fun channel =>
      { title := jsOr (getField song "title") (Json.str "Unknown")
        artist := jsOr (getField song "artist") (Json.str channel.name)
        album := jsOr (getField song "album") (Json.str "")
        albumart := jsOr (getField song "art") (Json.str fallbackArtB)
        seek := jsonTimes1000 elapsed
        duration := duration
        samplerate := if uriHasAac currentUri then "44.1 kHz" else "96 kHz"
        bitdepth := if uriHasAac currentUri then "16 bit" else "24 bit"
        trackType := if uriHasAac currentUri then "aac" else "flac" })

/-- getQualityFromUri of the idx revision: only the path-segment form is
recognised, the default is flac192. -/
def idxGetQualityFromUri (uri : Option String) : String :=
  match uri with
  | none => "flac192"
  | some u =>
    if u = "" then "flac192"
    else
      match splitSlash u with
      | p0 :: _ :: p2 :: _ =>
        if p0 = "motherearthradio" ∧ (p2 = "flac192" ∨ p2 = "flac96" ∨ p2 = "aac")
        then p2 else "flac192"
      | _ => "flac192"

/-- pushMetadata of the idx revision: always builds and pushes a state
(no channel guard); title defaults to the station name, artist and album
to the empty string, artwork to the fallback asset; seek and duration are
the constants 0. -/
def pushMetadata (song : Json) (stateUri : Option String) : VState :=
  { title := jsOr (getField song "title") (Json.str "Mother Earth Radio")
    artist := jsOr (getField song "artist") (Json.str "")
    album := jsOr (getField song "album") (Json.str "")
    albumart := jsOr (getField song "art") (Json.str fallbackArtB)
    seek := Json.num 0
    duration := Json.num 0
    samplerate := getSampleRate (idxGetQualityFromUri stateUri)
    bitdepth := getBitDepth (idxGetQualityFromUri stateUri)
    trackType := "flac" }

/-! The delayed application of accepted events, and stop(), of part_000
rev A, as a timed state model.  A setTimeout handle armed by
processNowPlayingData is recorded as a pending (fire time, event) pair;
the source keeps no reference to these handles, so stop() cannot and
does not cancel them, and stop() leaves this.currentChannel set. -/

/-- A state push recorded on the servicePushState log. -/
inductive Push where
  | play (st : VState)
  | stopped

/-- The per-session mutable fields of part_000 rev A that the delayed
metadata path reads or writes. -/
structure Session where
  currentChannel : Option String
  currentQuality : String
  currentUri : Option String
  metadataDelay : Int
  highLatencyMode : Bool
  sseActive : Bool
  sseReconnectTimer : Bool
  pendingMeta : List (Int × TrackEvent)
  pushed : List (Int × Push)

/-- stopSSE of part_000: clears the reconnect timer and destroys the
request; the pending metadata setTimeout handles are untouched (the
source holds no reference to them). -/
def stopSSEsession (s : Session) : Session :=
  { s with sseReconnectTimer := false, sseActive := false }

/-- One run of updateMetadata (rev A) at time t: push the built state, or
do nothing when the channel guard fails. -/
def updateMetadataAt (t : Int) (ev : TrackEvent) (s : Session) : Session :=
  match updateMetadataA ev.song ev.duration ev.elapsed s.currentChannel s.currentQuality with
  | none => s
  | some st => { s with pushed := s.pushed ++ [(t, Push.play st)] }

/-- The tail of processNowPlayingData at time t for an accepted event:
compute the effective delay; arm a one-shot timer when it is positive,
apply immediately otherwise. -/
def scheduleEventAt (t : Int) (ev : TrackEvent) (s : Session) : Session :=
  let delay := getEffectiveDelay s.metadataDelay s.highLatencyMode
  if 0 < delay then { s with pendingMeta := s.pendingMeta ++ [(t + delay, ev)] }
  else updateMetadataAt t ev s

/-- stop() of part_000 at time t: stopSSE, push the stop state, delegate
to the transport stop.  this.currentChannel and the pending metadata
timers are left as they are. -/
def stopAt (t : Int) (s : Session) : Session :=
  let s1 := stopSSEsession s
  { s1 with pushed := s1.pushed ++ [(t, Push.stopped)] }

/-- Timer expiry at time t: every pending metadata timer due at t fires
and runs updateMetadata. -/
def fireAt (t : Int) (s : Session) : Session :=
  let due := s.pendingMeta.filter (fun p => p.1 = t)
  let rest := s.pendingMeta.filter (fun p => ¬ p.1 = t)
  due.foldl (fun acc p => updateMetadataAt t p.2 acc) { s with pendingMeta := rest }

/-! The SSE reconnect state machine of part_000 (identical in rev A and
rev B): connectSSE, scheduleSSEReconnect, stopSSE. -/

/-- SSE_RECONNECT_DELAY_MS of part_000. -/
def SSE_RECONNECT_DELAY_MS : Nat := 3000

/-- SSE_MAX_RECONNECT_ATTEMPTS of part_000. -/
def SSE_MAX_RECONNECT_ATTEMPTS : Nat := 10

/-- The reconnect bookkeeping of part_000: the attempt counter, the
pending reconnect timer (with its delay) and the number of retry-exhausted
error toasts shown so far. -/
structure SSEConnState where
  attempts : Nat
  reconnectTimer : Option Nat
  toasts : Nat
  deriving DecidableEq

/-- scheduleSSEReconnect of part_000, run on a connect failure, stream end
or transport error: once the counter has reached the maximum it only shows
the error toast and returns (no timer is armed); below the maximum it
increments the counter and arms a timer for delay times the new counter
value. -/
def scheduleSSEReconnect (s : SSEConnState) : SSEConnState :=
  if SSE_MAX_RECONNECT_ATTEMPTS ≤ s.attempts then
    { s with toasts := s.toasts + 1 }
  else
    { s with attempts := s.attempts + 1,
             reconnectTimer := some (SSE_RECONNECT_DELAY_MS * (s.attempts + 1)) }

/-- The counter reset of connectSSE on a 200 response (successful connect,
stream established). -/
def connectSuccess (s : SSEConnState) : SSEConnState :=
  { s with attempts := 0 }

/-- A pending reconnect timer fires: connectSSE is invoked again and the
timer is spent. -/
def fireReconnect (s : SSEConnState) : SSEConnState :=
  { s with reconnectTimer := none }

/-- One step of a pure failure streak: the pending reconnect fires (a
no-op before the first reconnect) and the resulting connect attempt fails,
entering scheduleSSEReconnect. -/
def failStep (s : SSEConnState) : SSEConnState :=
  scheduleSSEReconnect (fireReconnect s)

/-- The state after n consecutive connect failures, starting from a fresh
manager (startSSE after stopSSE: counter 0, no timer, no toast). -/
def failStreak : Nat → SSEConnState
  | 0 => { attempts := 0, reconnectTimer := none, toasts := 0 }
  | n + 1 => failStep (failStreak n)

/-- stopSSE of part_000 on the reconnect bookkeeping: cancel the pending
timer and reset the counter to 0. -/
def stopSSEConn (s : SSEConnState) : SSEConnState :=
  { s with reconnectTimer := none, attempts := 0 }

/-- The fixed retry delay of the idx revision after a stream end
(setTimeout of startSSE with 5000 in the response end handler). -/
def IDX_SSE_END_RETRY_DELAY_MS : Nat := 5000

/-- The fixed retry delay of the idx revision after a request error
(setTimeout of startSSE with 10000 in the request error handler). -/
def IDX_SSE_ERROR_RETRY_DELAY_MS : Nat := 10000

/-! Playback control: clearAddPlayTrack of part_000 rev A. -/

/-- A transport command sent to MPD by clearAddPlayTrack. -/
inductive MpdCmd where
  | stop
  | clear
  | add (url : String)
  | play
  deriving DecidableEq

/-- How a clearAddPlayTrack call settles. -/
inductive PlayResult where
  | resolved
  | rejectedUnknownChannel
  | rejectedTransport
  deriving DecidableEq

/-- The observable outcome of one clearAddPlayTrack call: the channel the
Connection Manager was started for (none when it was not started), the
transport commands issued in order, how the returned promise settled, and
whether the provisional Connecting state was pushed. -/
structure PlayOutcome where
  sseStartedFor : Option String
  mpdIssued : List MpdCmd
  result : PlayResult
  provisionalPushed : Bool
  deriving DecidableEq

/-- The strict transport sequence of part_000: stop, clear, add url,
play. -/
def mpdSeqFor (url : String) : List MpdCmd :=
  [MpdCmd.stop, MpdCmd.clear, MpdCmd.add url, MpdCmd.play]

/-- The promise chain over the transport: commands are issued in order,
tr i telling whether the i-th issued command succeeds; the chain stops at
the first failure.  Returns the issued commands and whether all
succeeded. -/
def runMpdSeq (tr : Nat → Bool) : Nat → List MpdCmd → List MpdCmd × Bool
  | _, [] => ([], true)
  | i, c :: cs =>
    if tr i then
      let r := runMpdSeq tr (i + 1) cs
      (c :: r.1, r.2)
    else ([c], false)

/-- The body of clearAddPlayTrack from the getStreamUrl call on, for an
already resolved channel key and quality: reject with the unknown-channel
error when no stream URL resolves (before any SSE or transport activity);
otherwise start the SSE Connection Manager for the channel and only then
run the transport sequence, resolving and pushing the provisional state
exactly when the whole sequence succeeds. -/
def playResolved (channelKey quality : String) (tr : Nat → Bool) : PlayOutcome :=
  match getStreamUrl channelKey quality with
  | none =>
    { sseStartedFor := none, mpdIssued := [],
      result := PlayResult.rejectedUnknownChannel, provisionalPushed := false }
  | some url =>
    let r := runMpdSeq tr 0 (mpdSeqFor url)
    { sseStartedFor := some channelKey, mpdIssued := r.1,
      result := if r.2 then PlayResult.resolved else PlayResult.rejectedTransport,
      provisionalPushed := r.2 }

/-- clearAddPlayTrack of part_000 rev A: after stopSSE, the channel key and
quality are resolved from the track uri and the resolved body runs. -/
def clearAddPlayTrack (uri : Option String) (tr : Nat → Bool) : PlayOutcome :=
  playResolved (getChannelFromUri uri) (getQualityFromUri uri) tr

/-! Concrete sample payloads and sessions used in the theorems below. -/

/-- A song object with a title and an artist and nothing else. -/
def songB : Json := Json.obj [("title", Json.str "B"), ("artist", Json.str "A")]

/-- A now-playing payload carrying songB under the direct np nesting. -/
def validItem : Json :=
  Json.obj [("np", Json.obj [("now_playing", Json.obj
    [("song", songB), ("duration", Json.num 180), ("elapsed", Json.num 10)])])]

/-- An element with no now-playing/song sub-structure at all. -/
def emptyItem : Json := Json.obj []

/-- A connect handshake payload whose initial data array holds one valid
and one empty song element. -/
def connectPayload : Json :=
  Json.obj [("connect", Json.obj [("data", Json.arr [validItem, emptyItem])])]

/-- A keep-alive payload: parsed JSON with no connect field and no
now-playing/song sub-structure. -/
def keepAlivePayload : Json := Json.obj [("ping", Json.num 1)]

/-- The track event decoded from validItem. -/
def demoEv : TrackEvent :=
  { song := songB, duration := Json.num 180, elapsed := Json.num 10 }

/-- A session playing the radio channel at flac192 with a manual metadata
delay of 3000 and high-latency mode off. -/
def sPlaying : Session :=
  { currentChannel := some "radio"
    currentQuality := "flac192"
    currentUri := some "motherearthradio/radio/flac192"
    metadataDelay := 3000
    highLatencyMode := false
    sseActive := true
    sseReconnectTimer := false
    pendingMeta := []
    pushed := [] }

/-- The run behind claim C1: a track event accepted at time 0 and delayed
by 3000 ms, stop() at time 1000, the armed timer firing at time 3000. -/
def c1run : Session := fireAt 3000 (stopAt 1000 (scheduleEventAt 0 demoEv sPlaying))

/-- Whether a logged push is a play-state push. -/
def isPlayPush : Int × Push → Bool
  | (_, Push.play _) => true
  | (_, Push.stopped) => false

/-! Helper lemmas. -/

theorem lookupKeys {k : String} (h : (List.lookup k channelsList).isSome = true) :
    k = "radio" ∨ k = "klassik" ∨ k = "instrumental" ∨ k = "jazz" := by
  by_cases h1 : k = "radio"
  · exact Or.inl h1
  by_cases h2 : k = "klassik"
  · exact Or.inr (Or.inl h2)
  by_cases h3 : k = "instrumental"
  · exact Or.inr (Or.inr (Or.inl h3))
  by_cases h4 : k = "jazz"
  · exact Or.inr (Or.inr (Or.inr h4))
  exfalso
  have e1 : (k == "radio") = false := beq_eq_false_iff_ne.mpr h1
  have e2 : (k == "klassik") = false := beq_eq_false_iff_ne.mpr h2
  have e3 : (k == "instrumental") = false := beq_eq_false_iff_ne.mpr h3
  have e4 : (k == "jazz") = false := beq_eq_false_iff_ne.mpr h4
  simp [channelsList, List.lookup, e1, e2, e3, e4] at h

theorem scanKeys (u : String) :
    shortcodeScan u = "radio" ∨ shortcodeScan u = "klassik" ∨
    shortcodeScan u = "instrumental" ∨ shortcodeScan u = "jazz" := by
  unfold shortcodeScan
  split_ifs <;> simp

theorem channelFromPartsKeys (u : String) (parts : List String) :
    channelFromParts u parts = "radio" ∨ channelFromParts u parts = "klassik" ∨
    channelFromParts u parts = "instrumental" ∨ channelFromParts u parts = "jazz" := by
  rcases parts with _ | ⟨p0, _ | ⟨p1, tl⟩⟩
  · exact scanKeys u
  · exact scanKeys u
  · simp only [channelFromParts]
    split_ifs with h0 hl
    · exact lookupKeys hl
    · exact scanKeys u
    · exact scanKeys u

theorem channelFromUriKeys (uri : Option String) :
    getChannelFromUri uri = "radio" ∨ getChannelFromUri uri = "klassik" ∨
    getChannelFromUri uri = "instrumental" ∨ getChannelFromUri uri = "jazz" := by
  cases uri with
  | none => exact Or.inl rfl
  | some u =>
    simp only [getChannelFromUri]
    split_ifs
    · exact Or.inl rfl
    · exact channelFromPartsKeys u (splitSlash u)

theorem qualityFromPartsKeys (parts : List String) (q : String)
    (hq : qualityFromParts parts = some q) :
    q = "flac192" ∨ q = "flac96" ∨ q = "aac" := by
  rcases parts with _ | ⟨p0, _ | ⟨p1, _ | ⟨p2, tl⟩⟩⟩
  · exact absurd hq (by simp [qualityFromParts])
  · exact absurd hq (by simp [qualityFromParts])
  · exact absurd hq (by simp [qualityFromParts])
  · simp only [qualityFromParts] at hq
    split_ifs at hq with hc
    obtain rfl : p2 = q := Option.some.inj hq
    exact hc.2

theorem qualityFallbackKeys (u : String) :
    qualityFallback u = "flac192" ∨ qualityFallback u = "flac96" ∨
    qualityFallback u = "aac" := by
  unfold qualityFallback
  split_ifs <;> simp

theorem qualityFromUriKeys (uri : Option String) :
    getQualityFromUri uri = "flac192" ∨ getQualityFromUri uri = "flac96" ∨
    getQualityFromUri uri = "aac" := by
  cases uri with
  | none => exact Or.inl rfl
  | some u =>
    simp only [getQualityFromUri]
    split_ifs
    · exact Or.inl rfl
    · rcases hq : qualityFromParts (splitSlash u) with _ | q
      · simpa [hq] using qualityFallbackKeys u
      · simpa [hq] using qualityFromPartsKeys (splitSlash u) q hq

theorem getStreamUrlOfChannel (k : String) (ch : ChannelSpec)
    (hlk : List.lookup k channelsList = some ch)
    (hne : ch.streams.flac192 ≠ "" ∧ ch.streams.flac96 ≠ "" ∧ ch.streams.aac ≠ "")
    (q : String) :
    ∃ u, getStreamUrl k q = some u ∧ u ≠ "" := by
  have hred : getStreamUrl k q =
      (match streamsGet ch.streams q with
       | some s => some (if s = "" then ch.streams.flac192 else s)
       | none => some ch.streams.flac192) := by
    unfold getStreamUrl
    rw [hlk]
  rw [hred]
  by_cases h1 : q = "flac192"
  · subst h1
    rw [show streamsGet ch.streams "flac192" = some ch.streams.flac192 from rfl]
    refine ⟨ch.streams.flac192, ?_, hne.1⟩
    show some (if ch.streams.flac192 = "" then ch.streams.flac192 else ch.streams.flac192) =
      some ch.streams.flac192
    rw [ite_self]
  by_cases h2 : q = "flac96"
  · subst h2
    rw [show streamsGet ch.streams "flac96" = some ch.streams.flac96 from by
      simp [streamsGet, h1]]
    refine ⟨ch.streams.flac96, ?_, hne.2.1⟩
    show some (if ch.streams.flac96 = "" then ch.streams.flac192 else ch.streams.flac96) =
      some ch.streams.flac96
    rw [if_neg hne.2.1]
  by_cases h3 : q = "aac"
  · subst h3
    rw [show streamsGet ch.streams "aac" = some ch.streams.aac from by
      simp [streamsGet, h1, h2]]
    refine ⟨ch.streams.aac, ?_, hne.2.2⟩
    show some (if ch.streams.aac = "" then ch.streams.flac192 else ch.streams.aac) =
      some ch.streams.aac
    rw [if_neg hne.2.2]
  · rw [show streamsGet ch.streams q = none from by simp [streamsGet, h1, h2, h3]]
    exact ⟨ch.streams.flac192, rfl, hne.1⟩

theorem streamUrlSomeNonempty (k q : String)
    (hk : (List.lookup k channelsList).isSome = true) :
    ∃ u, getStreamUrl k q = some u ∧ u ≠ "" := by
  rcases lookupKeys hk with h | h | h | h <;> subst h
  · exact getStreamUrlOfChannel "radio" radioChannel rfl (by decide) q
  · exact getStreamUrlOfChannel "klassik" klassikChannel rfl (by decide) q
  · exact getStreamUrlOfChannel "instrumental" instrumentalChannel rfl (by decide) q
  · exact getStreamUrlOfChannel "jazz" jazzChannel rfl (by decide) q

theorem streamUrlTotal (uri : Option String) (q : String) :
    (getStreamUrl (getChannelFromUri uri) q).isSome = true := by
  have hk : (List.lookup (getChannelFromUri uri) channelsList).isSome = true := by
    rcases channelFromUriKeys uri with h | h | h | h <;> rw [h] <;> decide
  obtain ⟨u, hu, -⟩ := streamUrlSomeNonempty (getChannelFromUri uri) q hk
  rw [hu]; rfl

theorem lookupNoneStreamUrl (k q : String) (h : List.lookup k channelsList = none) :
    getStreamUrl k q = none := by
  unfold getStreamUrl
  rw [h]

theorem runMpdSeqTake (tr : Nat → Bool) (cmds : List MpdCmd) :
    ∀ i, ∃ k, (runMpdSeq tr i cmds).1 = cmds.take k := by
  induction cmds with
  | nil => intro i; exact ⟨0, rfl⟩
  | cons c cs ih =>
    intro i
    unfold runMpdSeq
    by_cases h : tr i
    · rw [if_pos h]
      obtain ⟨k, hk⟩ := ih (i + 1)
      exact ⟨k + 1, by simp [hk]⟩
    · rw [if_neg h]
      exact ⟨1, by simp⟩

theorem transportContractAux (uri : Option String) (tr : Nat → Bool) :
    (clearAddPlayTrack uri tr).sseStartedFor = some (getChannelFromUri uri)
    ∧ (∃ url k, getStreamUrl (getChannelFromUri uri) (getQualityFromUri uri) = some url
         ∧ (clearAddPlayTrack uri tr).mpdIssued = (mpdSeqFor url).take k)
    ∧ ((clearAddPlayTrack uri tr).result = PlayResult.resolved ↔
         (clearAddPlayTrack uri tr).provisionalPushed = true)
    ∧ (clearAddPlayTrack uri tr).result ≠ PlayResult.rejectedUnknownChannel := by
  have hk : (getStreamUrl (getChannelFromUri uri) (getQualityFromUri uri)).isSome = true :=
    streamUrlTotal uri (getQualityFromUri uri)
  obtain ⟨url, hurl⟩ := Option.isSome_iff_exists.mp hk
  have hred : clearAddPlayTrack uri tr =
      { sseStartedFor := some (getChannelFromUri uri)
        mpdIssued := (runMpdSeq tr 0 (mpdSeqFor url)).1
        result := if (runMpdSeq tr 0 (mpdSeqFor url)).2 then PlayResult.resolved
                  else PlayResult.rejectedTransport
        provisionalPushed := (runMpdSeq tr 0 (mpdSeqFor url)).2 } := by
    unfold clearAddPlayTrack playResolved
    rw [hurl]
  rw [hred]
  refine ⟨rfl, ⟨url, ?_⟩, ?_, ?_⟩
  · obtain ⟨k, hk2⟩ := runMpdSeqTake tr (mpdSeqFor url) 0
    exact ⟨k, hurl, hk2⟩
  · by_cases h : (runMpdSeq tr 0 (mpdSeqFor url)).2
    · simp [h]
    · simp [h]
  · by_cases h : (runMpdSeq tr 0 (mpdSeqFor url)).2
    · simp [h]
    · simp [h]

theorem processNil {d : Json} (h : hasPopulatedSong d = false) :
    processNowPlayingData d = [] := by
  unfold processNowPlayingData
  unfold hasPopulatedSong at h
  cases hnp : jsOrO
      (((getField d "pub").bind (fun p => getField p "data")).bind (fun e => getField e "np"))
      (getField d "np") with
  | none => rfl
  | some npV =>
    rw [hnp] at h
    dsimp only at h ⊢
    by_cases ht : truthy npV = false
    · rw [if_pos ht]
    · rw [if_neg ht]
      rw [Bool.not_eq_false] at ht
      rw [ht, Bool.true_and] at h
      cases hnow : getField npV "now_playing" with
      | none => rfl
      | some nowPlaying =>
        rw [hnow] at h
        dsimp only at h ⊢
        by_cases ht2 : truthy nowPlaying = false
        · rw [if_pos ht2]
        · rw [if_neg ht2]
          rw [Bool.not_eq_false] at ht2
          rw [ht2, Bool.true_and] at h
          cases hsong : getField nowPlaying "song" with
          | none => rfl
          | some song =>
            rw [hsong] at h
            simp only [truthyO] at h
            dsimp only
            rw [if_pos h]

theorem handleNoSong (lines : List SSELine) (d : Json)
    (h1 : lastDataPayload lines = some d)
    (h2 : truthyO (getField d "connect") = false)
    (h3 : hasPopulatedSong d = false) :
    handleSSEMessage lines = [] := by
  unfold handleSSEMessage
  rw [h1]
  dsimp only
  by_cases ht : truthy d = false
  · rw [if_pos ht]
  · rw [if_neg ht]
    cases hc : getField d "connect" with
    | none => exact processNil h3
    | some c =>
      rw [hc] at h2
      simp only [truthyO] at h2
      dsimp only
      rw [if_neg (by simp [h2])]
      exact processNil h3

theorem handleNoPayload (lines : List SSELine)
    (h : lastDataPayload lines = none) : handleSSEMessage lines = [] := by
  unfold handleSSEMessage
  rw [h]

theorem albumDefaultRevB (song duration elapsed : Json) (ch uri : Option String)
    (st : VState) (halb : getField song "album" = none)
    (h : updateMetadataB song duration elapsed ch uri = some st) :
    st.album = Json.str "" := by
  unfold updateMetadataB at h
  rcases Option.map_eq_some'.mp h with ⟨channel, hch, hst⟩
  rw [← hst]
  show jsOr (getField song "album") (Json.str "") = Json.str ""
  rw [halb]
  rfl

theorem albumDefaultRevA (song duration elapsed : Json) (ch : Option String)
    (cq : String) (st : VState) (halb : getField song "album" = none)
    (h : updateMetadataA song duration elapsed ch cq = some st) :
    st.album = Json.str (getQualityLabel cq) := by
  unfold updateMetadataA at h
  rcases Option.map_eq_some'.mp h with ⟨channel, hch, hst⟩
  rw [← hst]
  show jsOr (getField song "album") (Json.str (getQualityLabel cq)) =
    Json.str (getQualityLabel cq)
  rw [halb]
  rfl

theorem artDefaultRevA (song duration elapsed : Json) (ch : Option String)
    (cq : String) (st : VState) (hart : getField song "art" = none)
    (h : updateMetadataA song duration elapsed ch cq = some st) :
    st.albumart = Json.str fallbackArtA := by
  unfold updateMetadataA at h
  rcases Option.map_eq_some'.mp h with ⟨channel, hch, hst⟩
  rw [← hst]
  show jsOr (getField song "art") (Json.str fallbackArtA) = Json.str fallbackArtA
  rw [hart]
  rfl

theorem artDefaultRevB (song duration elapsed : Json) (ch uri : Option String)
    (st : VState) (hart : getField song "art" = none)
    (h : updateMetadataB song duration elapsed ch uri = some st) :
    st.albumart = Json.str fallbackArtB := by
  unfold updateMetadataB at h
  rcases Option.map_eq_some'.mp h with ⟨channel, hch, hst⟩
  rw [← hst]
  show jsOr (getField song "art") (Json.str fallbackArtB) = Json.str fallbackArtB
  rw [hart]
  rfl

theorem durationElapsedDefault (nowPlaying song : Json)
    (hd : getField nowPlaying "duration" = none)
    (he : getField nowPlaying "elapsed" = none)
    (hs : getField nowPlaying "song" = some song)
    (hts : truthy song = true) (htnp : truthy nowPlaying = true) :
    processNowPlayingData (Json.obj [("np", Json.obj [("now_playing", nowPlaying)])]) =
      [{ song := song, duration := Json.num 0, elapsed := Json.num 0 }] := by
  unfold processNowPlayingData
  rw [show jsOrO
      (((getField (Json.obj [("np", Json.obj [("now_playing", nowPlaying)])]) "pub").bind
          (fun p => getField p "data")).bind (fun e => getField e "np"))
      (getField (Json.obj [("np", Json.obj [("now_playing", nowPlaying)])]) "np") =
      some (Json.obj [("now_playing", nowPlaying)]) from rfl]
  dsimp only
  rw [if_neg (by simp [truthy])]
  rw [show getField (Json.obj [("now_playing", nowPlaying)]) "now_playing" =
    some nowPlaying from rfl]
  dsimp only
  rw [if_neg (by simp [htnp])]
  rw [hs, hd, he]
  dsimp only
  rw [if_neg (by simp [hts])]
  rfl

theorem updateMetadataATotal (song duration elapsed : Json) (k : String) (cq : String) :
    (updateMetadataA song duration elapsed (some k) cq).isSome =
      (List.lookup k channelsList).isSome := by
  unfold updateMetadataA
  cases hl : List.lookup k channelsList <;> simp [hl]

theorem failStreakAttempts (n : Nat) : (failStreak n).attempts = min n 10 := by
  induction n with
  | zero => rfl
  | succ n ih =>
    show (scheduleSSEReconnect (fireReconnect (failStreak n))).attempts = min (n + 1) 10
    unfold scheduleSSEReconnect
    have hf : (fireReconnect (failStreak n)).attempts = (failStreak n).attempts := rfl
    by_cases h : SSE_MAX_RECONNECT_ATTEMPTS ≤ (fireReconnect (failStreak n)).attempts
    · rw [if_pos h]
      show (fireReconnect (failStreak n)).attempts = min (n + 1) 10
      rw [hf, ih]
      rw [hf, ih] at h
      unfold SSE_MAX_RECONNECT_ATTEMPTS at h
      omega
    · rw [if_neg h]
      show (fireReconnect (failStreak n)).attempts + 1 = min (n + 1) 10
      rw [hf, ih]
      rw [hf, ih] at h
      unfold SSE_MAX_RECONNECT_ATTEMPTS at h
      omega

/-! Claim theorems. -/

/-- C1 (code bug evidence): a track event accepted at time 0 with an
effective delay of 3000 ms is still pending after stop() at time 1000
(stop does not cancel the metadata timer and keeps currentChannel), and
when the timer fires at time 3000 the play state IS pushed to the
publisher after the stop push — the delayed event is applied, with no
fire-time liveness check, contrary to the claim and to the design
contract of the spec. -/
theorem staleDelayedEventApplied :
    (stopAt 1000 (scheduleEventAt 0 demoEv sPlaying)).pendingMeta.map Prod.fst = [3000]
    ∧ (stopAt 1000 (scheduleEventAt 0 demoEv sPlaying)).currentChannel = some "radio"
    ∧ c1run.pushed.map Prod.fst = [1000, 3000]
    ∧ c1run.pushed.map isPlayPush = [false, true] := ⟨rfl, rfl, rfl, rfl⟩

/-- C2 counterexample: in the idx revision, handleMetadata schedules after
metadataDelay seconds times 1000 and ignores high-latency mode, so with a
3000 ms manual delay and high-latency mode active the event fires after
3000 ms where the claim requires 5000 ms. -/
theorem idxDelayIgnoresHighLatency :
    idxHandleMetadataDelayMs 3 = 3000
    ∧ getEffectiveDelay 3000 true = 5000
    ∧ idxHandleMetadataDelayMs 3 ≠ getEffectiveDelay 3000 true :=
  ⟨rfl, rfl, by decide⟩

/-- C2 (amended): in part_000 the effective delay is the stored manual
delay value plus a fixed 2000 ms offset exactly when high-latency mode is
active, floored at 0; with manual delay 3000 an accepted event is armed
for scheduling time plus 3000 ms (high-latency off) or plus 5000 ms
(high-latency on) and the timer fires then; the idx revision instead uses
manual delay seconds times 1000 with no offset. -/
theorem effectiveDelayCharacterization :
    (∀ m hl, getEffectiveDelay m hl =
        max 0 (m + if hl then HIGH_LATENCY_DELAY_MS else 0))
    ∧ getEffectiveDelay 3000 false = 3000
    ∧ getEffectiveDelay 3000 true = 5000
    ∧ (∀ t ev s, s.metadataDelay = 3000 → s.highLatencyMode = false →
        (scheduleEventAt t ev s).pendingMeta = s.pendingMeta ++ [(t + 3000, ev)])
    ∧ (∀ t ev s, s.metadataDelay = 3000 → s.highLatencyMode = true →
        (scheduleEventAt t ev s).pendingMeta = s.pendingMeta ++ [(t + 5000, ev)])
    ∧ (fireAt 3000 (scheduleEventAt 0 demoEv sPlaying)).pushed.map Prod.fst = [3000]
    ∧ (∀ m, idxHandleMetadataDelayMs m = m * 1000) := by
  refine ⟨fun m hl => rfl, rfl, rfl, ?_, ?_, rfl, fun m => rfl⟩
  · intro t ev s hm hh
    unfold scheduleEventAt
    rw [hm, hh]
    rw [show getEffectiveDelay 3000 false = 3000 from rfl]
    rw [if_pos (by norm_num)]
  · intro t ev s hm hh
    unfold scheduleEventAt
    rw [hm, hh]
    rw [show getEffectiveDelay 3000 true = 5000 from rfl]
    rw [if_pos (by norm_num)]

/-- C2 witness: the delay conjuncts applied at the concrete playing
session. -/
theorem effectiveDelayWitness :
    (scheduleEventAt 7 demoEv sPlaying).pendingMeta =
      sPlaying.pendingMeta ++ [(7 + 3000, demoEv)] :=
  effectiveDelayCharacterization.2.2.2.1 7 demoEv sPlaying rfl rfl

/-- C3 counterexample: the idx revision retries after fixed delays of
5000 ms (stream end) and 10000 ms (request error), neither of which is
the claimed base delay 3000 ms times the attempt number for the first
attempt. -/
theorem idxFixedReconnectDelay :
    IDX_SSE_END_RETRY_DELAY_MS = 5000
    ∧ IDX_SSE_ERROR_RETRY_DELAY_MS = 10000
    ∧ SSE_RECONNECT_DELAY_MS * 1 = 3000
    ∧ IDX_SSE_END_RETRY_DELAY_MS ≠ SSE_RECONNECT_DELAY_MS * 1
    ∧ IDX_SSE_ERROR_RETRY_DELAY_MS ≠ SSE_RECONNECT_DELAY_MS * 1 :=
  ⟨rfl, rfl, rfl, by decide, by decide⟩

/-- C3 (amended): in part_000 every failure below the maximum increments
the attempt counter and arms a reconnect timer for 3000 ms times the new
attempt number; at or above the maximum of 10 nothing is armed; the
counter never exceeds 10 along a failure streak. -/
theorem reconnectBackoffPolicy :
    SSE_RECONNECT_DELAY_MS = 3000
    ∧ SSE_MAX_RECONNECT_ATTEMPTS = 10
    ∧ (∀ s, s.attempts < SSE_MAX_RECONNECT_ATTEMPTS →
        (scheduleSSEReconnect s).attempts = s.attempts + 1 ∧
        (scheduleSSEReconnect s).reconnectTimer =
          some (SSE_RECONNECT_DELAY_MS * (s.attempts + 1)))
    ∧ (∀ s, SSE_MAX_RECONNECT_ATTEMPTS ≤ s.attempts →
        (scheduleSSEReconnect s).attempts = s.attempts ∧
        (scheduleSSEReconnect s).reconnectTimer = s.reconnectTimer)
    ∧ (∀ n, (failStreak n).attempts ≤ 10) := by
  refine ⟨rfl, rfl, ?_, ?_, ?_⟩
  · intro s h
    unfold scheduleSSEReconnect
    rw [if_neg (Nat.not_le.mpr h)]
    exact ⟨rfl, rfl⟩
  · intro s h
    unfold scheduleSSEReconnect
    rw [if_pos h]
    exact ⟨rfl, rfl⟩
  · intro n
    rw [failStreakAttempts]
    omega

/-- C3 witness: the third reconnect is armed after 9000 ms. -/
theorem reconnectBackoffWitness :
    (scheduleSSEReconnect { attempts := 2, reconnectTimer := none, toasts := 0 }).attempts = 3
    ∧ (scheduleSSEReconnect { attempts := 2, reconnectTimer := none, toasts := 0 }).reconnectTimer
      = some 9000 := by
  have h := reconnectBackoffPolicy.2.2.1
    { attempts := 2, reconnectTimer := none, toasts := 0 } (by decide)
  exact ⟨h.1, h.2⟩

/-- C4 counterexample: playing the radio flac192 uri with a transport
whose very first command fails still starts the SSE Connection Manager
for the radio channel, although the operation is rejected — the manager
is not gated on transport success. -/
theorem sseStartedDespiteTransportFailure :
    (clearAddPlayTrack (some "motherearthradio/radio/flac192") (fun _ => false)).result
      = PlayResult.rejectedTransport
    ∧ (clearAddPlayTrack (some "motherearthradio/radio/flac192") (fun _ => false)).sseStartedFor
      = some "radio"
    ∧ (clearAddPlayTrack (some "motherearthradio/radio/flac192") (fun _ => false)).mpdIssued
      = [MpdCmd.stop] := ⟨rfl, rfl, rfl⟩

/-- C4 (amended): for every uri and transport, the Connection Manager is
started for the resolved channel before the transport sequence runs; the
commands issued are always an initial segment of stop, clear, add url,
play; and the operation resolves (with the provisional state pushed)
exactly when the whole transport sequence succeeds, being rejected
otherwise. -/
theorem transportSequenceContract : ∀ (uri : Option String) (tr : Nat → Bool),
    (clearAddPlayTrack uri tr).sseStartedFor = some (getChannelFromUri uri)
    ∧ (∃ url k, getStreamUrl (getChannelFromUri uri) (getQualityFromUri uri) = some url
         ∧ (clearAddPlayTrack uri tr).mpdIssued = (mpdSeqFor url).take k)
    ∧ ((clearAddPlayTrack uri tr).result = PlayResult.resolved ↔
         (clearAddPlayTrack uri tr).provisionalPushed = true)
    ∧ (clearAddPlayTrack uri tr).result ≠ PlayResult.rejectedUnknownChannel :=
  fun uri tr => transportContractAux uri tr

/-- C4 witness: the contract applied at the jazz aac uri with an
all-success transport. -/
theorem transportSequenceWitness :
    (clearAddPlayTrack (some "motherearthradio/jazz/aac") (fun _ => true)).sseStartedFor
      = some (getChannelFromUri (some "motherearthradio/jazz/aac")) :=
  (transportSequenceContract (some "motherearthradio/jazz/aac") (fun _ => true)).1

/-- C5: a frame whose payload has no truthy connect field and no populated
now-playing/song sub-structure decodes to zero events, as does a frame
with no parsed payload at all; the connect-handshake frame whose initial
data array holds one valid and one empty song decodes each element
individually and yields exactly one track event. -/
theorem decoderKeepAliveAndConnect :
    (∀ lines d, lastDataPayload lines = some d →
        truthyO (getField d "connect") = false →
        hasPopulatedSong d = false →
        handleSSEMessage lines = [])
    ∧ (∀ lines, lastDataPayload lines = none → handleSSEMessage lines = [])
    ∧ handleSSEMessage [SSELine.dataLine (some connectPayload)] =
        [{ song := songB, duration := Json.num 180, elapsed := Json.num 10 }]
    ∧ (handleSSEMessage [SSELine.dataLine (some connectPayload)]).length = 1
    ∧ processNowPlayingData validItem =
        [{ song := songB, duration := Json.num 180, elapsed := Json.num 10 }]
    ∧ processNowPlayingData emptyItem = [] :=
  ⟨handleNoSong, handleNoPayload, rfl, rfl, rfl, rfl⟩

/-- C5 witness: the keep-alive conjunct applied to a concrete ping
frame. -/
theorem decoderKeepAliveWitness :
    handleSSEMessage [SSELine.dataLine (some keepAlivePayload)] = [] :=
  decoderKeepAliveAndConnect.1 [SSELine.dataLine (some keepAlivePayload)]
    keepAlivePayload rfl rfl rfl

/-- C6 counterexample: in rev A, a decoded song without an album field
maps the album to the quality label of the current quality, not to the
empty string — at radio flac192 the album becomes FLAC 192kHz/24bit. -/
theorem albumDefaultIsQualityLabelInRevA :
    (updateMetadataA songB (Json.num 180) (Json.num 10) (some "radio") "flac192").map
        VState.album = some (Json.str "FLAC 192kHz/24bit")
    ∧ Json.str "FLAC 192kHz/24bit" ≠ Json.str "" := by
  refine ⟨rfl, fun h => ?_⟩
  exact absurd (Json.str.inj h) (by decide)

/-- C6 (amended): artwork defaults to the fallback asset reference in all
three revisions, duration and elapsed default to 0 in the decode step,
and extraction is total (a state is produced whenever the channel
resolves); a missing album maps to the empty string in rev B and in the
idx pushMetadata, but to the quality label in rev A. -/
theorem decodedFieldDefaults :
    (∀ song duration elapsed ch uri st, getField song "album" = none →
        updateMetadataB song duration elapsed ch uri = some st →
        st.album = Json.str "")
    ∧ (∀ song duration elapsed ch cq st, getField song "album" = none →
        updateMetadataA song duration elapsed ch cq = some st →
        st.album = Json.str (getQualityLabel cq))
    ∧ (∀ song duration elapsed ch cq st, getField song "art" = none →
        updateMetadataA song duration elapsed ch cq = some st →
        st.albumart = Json.str fallbackArtA)
    ∧ (∀ song duration elapsed ch uri st, getField song "art" = none →
        updateMetadataB song duration elapsed ch uri = some st →
        st.albumart = Json.str fallbackArtB)
    ∧ (∀ song uri, getField song "album" = none →
        (pushMetadata song uri).album = Json.str "")
    ∧ (∀ song uri, getField song "art" = none →
        (pushMetadata song uri).albumart = Json.str fallbackArtB)
    ∧ (∀ nowPlaying song, getField nowPlaying "duration" = none →
        getField nowPlaying "elapsed" = none →
        getField nowPlaying "song" = some song →
        truthy song = true → truthy nowPlaying = true →
        processNowPlayingData (Json.obj [("np", Json.obj [("now_playing", nowPlaying)])]) =
          [{ song := song, duration := Json.num 0, elapsed := Json.num 0 }])
    ∧ (∀ song duration elapsed k cq,
        (updateMetadataA song duration elapsed (some k) cq).isSome =
          (List.lookup k channelsList).isSome) := by
  refine ⟨albumDefaultRevB, albumDefaultRevA, artDefaultRevA, artDefaultRevB, ?_, ?_,
    durationElapsedDefault, updateMetadataATotal⟩
  · intro song uri halb
    show jsOr (getField song "album") (Json.str "") = Json.str ""
    rw [halb]
    rfl
  · intro song uri hart
    show jsOr (getField song "art") (Json.str fallbackArtB) = Json.str fallbackArtB
    rw [hart]
    rfl

/-- C6 witness: the idx pushMetadata album default applied to the concrete
song without an album field. -/
theorem decodedFieldDefaultsWitness :
    (pushMetadata songB none).album = Json.str "" :=
  decodedFieldDefaults.2.2.2.2.1 songB none rfl

/-- C7: scheduling a retry never decreases the attempt counter and never
resets a nonzero counter; the counter becomes 0 exactly at a successful
connect; along a pure failure streak of n below-maximum failures the
counter is exactly n and a following successful connect resets it to 0. -/
theorem attemptCounterResetDiscipline :
    (∀ s, s.attempts ≤ (scheduleSSEReconnect s).attempts)
    ∧ (∀ s, (connectSuccess s).attempts = 0)
    ∧ (∀ s, s.attempts ≠ 0 → (scheduleSSEReconnect s).attempts ≠ 0)
    ∧ (∀ n, n < SSE_MAX_RECONNECT_ATTEMPTS →
        (failStreak n).attempts = n ∧ (connectSuccess (failStreak n)).attempts = 0) := by
  refine ⟨?_, fun s => rfl, ?_, ?_⟩
  · intro s
    unfold scheduleSSEReconnect
    by_cases h : SSE_MAX_RECONNECT_ATTEMPTS ≤ s.attempts
    · rw [if_pos h]
    · rw [if_neg h]
      exact Nat.le_succ s.attempts
  · intro s h
    unfold scheduleSSEReconnect
    by_cases hle : SSE_MAX_RECONNECT_ATTEMPTS ≤ s.attempts
    · rw [if_pos hle]
      exact h
    · rw [if_neg hle]
      exact Nat.succ_ne_zero s.attempts
  · intro n h
    refine ⟨?_, rfl⟩
    rw [failStreakAttempts]
    unfold SSE_MAX_RECONNECT_ATTEMPTS at h
    omega

/-- C7 witness: four consecutive failures leave the counter at 4 and a
successful connect resets it to 0. -/
theorem attemptCounterWitness :
    (failStreak 4).attempts = 4 ∧ (connectSuccess (failStreak 4)).attempts = 0 :=
  attemptCounterResetDiscipline.2.2.2 4 (by decide)

/-- C8: after the 10 allowed reconnect attempts have been armed (counter
at 10, timer pending, no toast yet), the next failure arms no further
reconnect timer, emits the retry-exhausted toast exactly once, and leaves
the manager with no pending timer, so it cannot retry again; no toast is
emitted before that point; startSSE via stopSSE resets the counter and
timer for a fresh manager. -/
theorem retryExhaustionSignalledOnce :
    failStreak 10 = { attempts := 10, reconnectTimer := some 30000, toasts := 0 }
    ∧ failStreak 11 = { attempts := 10, reconnectTimer := none, toasts := 1 }
    ∧ ((List.range 11).all fun n => (failStreak n).toasts == 0) = true
    ∧ (stopSSEConn (failStreak 11)).attempts = 0
    ∧ (stopSSEConn (failStreak 11)).reconnectTimer = none := by
  refine ⟨?_, ?_, ?_, rfl, rfl⟩ <;> decide

/-- C9: for every channel key present in the registry and every quality
string, getStreamUrl returns a nonempty URL (falling back to the flac192
entry when the quality has none); for a key not in the registry it
returns null, and the play body then rejects with the unknown-channel
error, issues no transport command and starts no SSE manager. -/
theorem streamUrlResolution :
    (∀ k q, (List.lookup k channelsList).isSome = true →
        ∃ u, getStreamUrl k q = some u ∧ u ≠ "")
    ∧ (∀ k q, List.lookup k channelsList = none → getStreamUrl k q = none)
    ∧ (∀ k q tr, List.lookup k channelsList = none →
        playResolved k q tr =
          { sseStartedFor := none, mpdIssued := [],
            result := PlayResult.rejectedUnknownChannel, provisionalPushed := false }) := by
  refine ⟨streamUrlSomeNonempty, lookupNoneStreamUrl, ?_⟩
  intro k q tr h
  unfold playResolved
  rw [lookupNoneStreamUrl k q h]

/-- C9 witness: a registered key with an unknown quality string resolves
to a nonempty URL, and an unregistered key resolves to none with the
rejecting play outcome. -/
theorem streamUrlResolutionWitness :
    (∃ u, getStreamUrl "klassik" "mp3" = some u ∧ u ≠ "")
    ∧ getStreamUrl "nochannel" "flac192" = none
    ∧ (playResolved "nochannel" "flac192" (fun _ => true)).result
      = PlayResult.rejectedUnknownChannel :=
  ⟨streamUrlResolution.1 "klassik" "mp3" (by decide),
   streamUrlResolution.2.1 "nochannel" "flac192" rfl,
   by rw [streamUrlResolution.2.2 "nochannel" "flac192" (fun _ => true) rfl]⟩

/-- C10: every uri (null, empty or arbitrary) resolves to a channel key
present in the table and to one of the three quality tiers, the resolved
stream URL is never null, and consequently the unknown-channel rejection
branch of clearAddPlayTrack is unreachable and the SSE manager is always
started. -/
theorem uriResolutionTotal : ∀ (uri : Option String) (tr : Nat → Bool),
    (getChannelFromUri uri = "radio" ∨ getChannelFromUri uri = "klassik" ∨
      getChannelFromUri uri = "instrumental" ∨ getChannelFromUri uri = "jazz")
    ∧ (getQualityFromUri uri = "flac192" ∨ getQualityFromUri uri = "flac96" ∨
      getQualityFromUri uri = "aac")
    ∧ (getStreamUrl (getChannelFromUri uri) (getQualityFromUri uri)).isSome = true
    ∧ (clearAddPlayTrack uri tr).result ≠ PlayResult.rejectedUnknownChannel
    ∧ (clearAddPlayTrack uri tr).sseStartedFor = some (getChannelFromUri uri) :=
  fun uri tr =>
    ⟨channelFromUriKeys uri, qualityFromUriKeys uri,
     streamUrlTotal uri (getQualityFromUri uri),
     (transportContractAux uri tr).2.2.2, (transportContractAux uri tr).1⟩

/-- C10 witness: the totality facts applied at a null uri. -/
theorem uriResolutionTotalWitness :
    (clearAddPlayTrack none (fun _ => true)).sseStartedFor =
      some (getChannelFromUri none) :=
  (uriResolutionTotal none (fun _ => true)).2.2.2.2

end MER
